import Mathlib

/-!
Verification development for the networking-coach repository.

The embedding covers:
* the client component `NetworkingCoach` (src/src/components/NetworkingCoach.tsx):
  the `MessageData` form state, the four `messageTemplates`, the event handlers
  (`handleGenerate`, message-type selection, the form inputs) and `isFormValid`;
* the `MessageHistory` component (the unnamed source file defining `toggleFavorite`,
  `deleteMessage`, `loadMessages`);
* the `generate-networking-message` edge function (the Deno `serve` handler);
* the SQL migration: table shapes, the `message_type` CHECK constraint, the
  row-level-security policies and the `updated_at` trigger.
-/

namespace NetworkingCoach

/-- The client-side `MessageType` union:
`"linkedin" | "informational" | "recruiter-followup" | "mentor-request"`. -/
inductive MessageType where
  | linkedin
  | informational
  | recruiterFollowup
  | mentorRequest
deriving DecidableEq, Repr

/-- The string literal each `MessageType` variant stands for in the source. -/
def MessageType.value : MessageType → String
  | .linkedin => "linkedin"
  | .informational => "informational"
  | .recruiterFollowup => "recruiter-followup"
  | .mentorRequest => "mentor-request"

/-- The `MessageData` interface of NetworkingCoach.tsx. -/
structure MessageData where
  recipientName : String
  recipientTitle : String
  company : String
  purpose : String
  messageType : MessageType
deriving DecidableEq, Repr

/-- One entry of the `messageTemplates` record: its `title`, `description` and
`template` function (the `icon`, a React component, carries no data). -/
structure TemplateEntry where
  title : String
  description : String
  template : MessageData → String

/-- The `messageTemplates` record of NetworkingCoach.tsx, with each template
literal translated to explicit string concatenation. -/
def messageTemplates : MessageType → TemplateEntry
  | .linkedin =>
    { title := "LinkedIn Connection Request"
      description := "Professional connection request for LinkedIn"
      template := fun data =>
        "Hi " ++ data.recipientName ++
        ",\n\nI'm a student and came across your profile. I was impressed by your work at " ++
        data.company ++ ". " ++ data.purpose ++
        "\n\nI'd love to connect and learn from your experience in the field.\n\nBest regards" }
  | .informational =>
    { title := "Informational Interview Request"
      description := "Request a brief informational interview"
      template := fun data =>
        "Subject: Informational Interview Request\n\nDear " ++ data.recipientName ++
        ",\n\nI hope this email finds you well. I'm a student and discovered your profile through LinkedIn. I was impressed by your career journey at " ++
        data.company ++ ".\n\n" ++ data.purpose ++
        "\n\nI would be incredibly grateful for 15-20 minutes of your time to learn about your experience and gain insights into the industry. I'm particularly interested in understanding:\n\n• Your career path and key decisions\n• Advice for someone entering the field\n• Current trends and challenges in the industry\n\nI'm flexible with timing and happy to work around your schedule. Would a brief phone call or video chat be possible in the coming weeks?\n\nThank you for considering my request. I understand you have a busy schedule and truly appreciate any time you can spare.\n\nBest regards" }
  | .recruiterFollowup =>
    { title := "Recruiter Follow-up"
      description := "Follow up after meeting with a recruiter"
      template := fun data =>
        "Subject: Following up on our conversation\n\nHi " ++ data.recipientName ++
        ",\n\nThank you for taking the time to speak with me about opportunities at " ++
        data.company ++ ". " ++ data.purpose ++
        "\n\nI wanted to follow up and reiterate my strong interest in joining your team. Based on our conversation, I'm even more excited about the possibility of contributing to " ++
        data.company ++
        "'s mission.\n\nI've attached my updated resume and would be happy to provide any additional information you might need. Please let me know if there are any next steps I should be aware of.\n\nI look forward to hearing from you.\n\nBest regards" }
  | .mentorRequest =>
    { title := "Mentorship Request"
      description := "Request ongoing mentorship relationship"
      template := fun data =>
        "Subject: Mentorship Opportunity\n\nDear " ++ data.recipientName ++
        ",\n\nI hope you're doing well. I'm a student and came across your profile. I was inspired by your career achievements at " ++
        data.company ++ ".\n\n" ++ data.purpose ++
        "\n\nI'm writing to inquire about the possibility of a mentoring relationship. I'm passionate about growing in this field and would greatly value guidance from someone with your experience and expertise.\n\nI understand that mentoring is a significant commitment, and I want to assure you that I would:\n\n• Come prepared to our conversations with specific questions\n• Respect your time and schedule\n• Take action on the advice you provide\n• Keep you updated on my progress\n\nWould you be open to a brief conversation to discuss this possibility? I'm happy to accommodate your schedule and preferred communication method.\n\nThank you for considering this request.\n\nRespectfully" }

/-- Spec-side view of a template: a piece is either a fixed literal segment or
one of the three input fields the spec names (recipient name, company, purpose). -/
inductive TemplatePiece where
  | lit (s : String)
  | recipientName
  | company
  | purpose
deriving DecidableEq, Repr

/-- Render one piece against a `MessageData`. -/
def TemplatePiece.render (d : MessageData) : TemplatePiece → String
  | .lit s => s
  | .recipientName => d.recipientName
  | .company => d.company
  | .purpose => d.purpose

/-- Render a whole piece list: the literal segments interleaved with the fields. -/
def renderPieces (d : MessageData) : List TemplatePiece → String
  | [] => ""
  | p :: ps => p.render d ++ renderPieces d ps

/-- The shape the spec ascribes to each template: its fixed literal segments
interleaved with the recipientName, company and purpose fields. -/
def templatePieces : MessageType → List TemplatePiece
  | .linkedin =>
    [.lit "Hi ", .recipientName,
     .lit ",\n\nI'm a student and came across your profile. I was impressed by your work at ",
     .company, .lit ". ", .purpose,
     .lit "\n\nI'd love to connect and learn from your experience in the field.\n\nBest regards"]
  | .informational =>
    [.lit "Subject: Informational Interview Request\n\nDear ", .recipientName,
     .lit ",\n\nI hope this email finds you well. I'm a student and discovered your profile through LinkedIn. I was impressed by your career journey at ",
     .company, .lit ".\n\n", .purpose,
     .lit "\n\nI would be incredibly grateful for 15-20 minutes of your time to learn about your experience and gain insights into the industry. I'm particularly interested in understanding:\n\n• Your career path and key decisions\n• Advice for someone entering the field\n• Current trends and challenges in the industry\n\nI'm flexible with timing and happy to work around your schedule. Would a brief phone call or video chat be possible in the coming weeks?\n\nThank you for considering my request. I understand you have a busy schedule and truly appreciate any time you can spare.\n\nBest regards"]
  | .recruiterFollowup =>
    [.lit "Subject: Following up on our conversation\n\nHi ", .recipientName,
     .lit ",\n\nThank you for taking the time to speak with me about opportunities at ",
     .company, .lit ". ", .purpose,
     .lit "\n\nI wanted to follow up and reiterate my strong interest in joining your team. Based on our conversation, I'm even more excited about the possibility of contributing to ",
     .company,
     .lit "'s mission.\n\nI've attached my updated resume and would be happy to provide any additional information you might need. Please let me know if there are any next steps I should be aware of.\n\nI look forward to hearing from you.\n\nBest regards"]
  | .mentorRequest =>
    [.lit "Subject: Mentorship Opportunity\n\nDear ", .recipientName,
     .lit ",\n\nI hope you're doing well. I'm a student and came across your profile. I was inspired by your career achievements at ",
     .company, .lit ".\n\n", .purpose,
     .lit "\n\nI'm writing to inquire about the possibility of a mentoring relationship. I'm passionate about growing in this field and would greatly value guidance from someone with your experience and expertise.\n\nI understand that mentoring is a significant commitment, and I want to assure you that I would:\n\n• Come prepared to our conversations with specific questions\n• Respect your time and schedule\n• Take action on the advice you provide\n• Keep you updated on my progress\n\nWould you be open to a brief conversation to discuss this possibility? I'm happy to accommodate your schedule and preferred communication method.\n\nThank you for considering this request.\n\nRespectfully"]

/-- `isFormValid`: `messageData.recipientName && messageData.company` — under
JavaScript truthiness, both strings non-empty. -/
def isFormValid (d : MessageData) : Bool :=
  d.recipientName != "" && d.company != ""

/-- The component's `useState` variables. -/
structure CoachState where
  messageData : MessageData
  generatedMessage : String
  copied : Bool
  activeStep : Nat
deriving DecidableEq, Repr

/-- The initial `useState` values of NetworkingCoach.tsx. -/
def initialCoachState : CoachState :=
  { messageData :=
      { recipientName := ""
        recipientTitle := ""
        company := ""
        purpose := ""
        messageType := .linkedin }
    generatedMessage := ""
    copied := false
    activeStep := 1 }

/-- A request to the `generate-networking-message` edge function, as the client
would send one. Event handlers are embedded as returning, next to the new
state, the list of edge-function calls their body performs. -/
structure EdgeCall where
  messageType : MessageType
  recipientName : String
  recipientTitle : String
  company : String
  purpose : String
deriving DecidableEq, Repr

/-- `handleGenerate` of NetworkingCoach.tsx: looks up the template for the
selected message type, applies it to `messageData`, stores the result in
`generatedMessage` and sets `activeStep` to 3. Its body performs no
edge-function call, so the call trace it produces is empty. -/
def handleGenerate (s : CoachState) : CoachState × List EdgeCall :=
  ({ s with
      generatedMessage := (messageTemplates s.messageData.messageType).template s.messageData
      activeStep := 3 },
   [])

/-- The `onClick` handler of a message-type button:
`setMessageData({...prev, messageType: key}); setActiveStep(Math.max(activeStep, 1))`. -/
def selectMessageType (key : MessageType) (s : CoachState) : CoachState :=
  { s with
      messageData := { s.messageData with messageType := key }
      activeStep := max s.activeStep 1 }

/-- The `onChange` handler of the recipient-name input: stores the value and,
when the value is truthy and `activeStep < 2`, sets `activeStep` to 2. -/
def inputRecipientName (v : String) (s : CoachState) : CoachState :=
  let s' := { s with messageData := { s.messageData with recipientName := v } }
  if v != "" && decide (s.activeStep < 2) then { s' with activeStep := 2 } else s'

/-- The `onChange` handler of the recipient-title input. -/
def inputRecipientTitle (v : String) (s : CoachState) : CoachState :=
  { s with messageData := { s.messageData with recipientTitle := v } }

/-- The `onChange` handler of the company input. -/
def inputCompany (v : String) (s : CoachState) : CoachState :=
  { s with messageData := { s.messageData with company := v } }

/-- The `onChange` handler of the purpose textarea. -/
def inputPurpose (v : String) (s : CoachState) : CoachState :=
  { s with messageData := { s.messageData with purpose := v } }

theorem string_append_empty (s : String) : s ++ "" = s := by
  apply String.ext
  simp [String.data_append]

/-- Each template function is exactly the interpolation of its piece list. -/
theorem template_eq_renderPieces (mt : MessageType) (d : MessageData) :
    (messageTemplates mt).template d = renderPieces d (templatePieces mt) := by
  cases mt <;>
    simp [messageTemplates, templatePieces, renderPieces, TemplatePiece.render,
      string_append_empty, String.append_assoc]

/-- Every template ignores the `recipientTitle` field. -/
theorem template_ignores_recipientTitle (mt : MessageType) (d : MessageData) (t : String) :
    (messageTemplates mt).template { d with recipientTitle := t } =
      (messageTemplates mt).template d := by
  cases mt <;> rfl

/-- Rendering a piece list embeds the rendering of each of its pieces. -/
theorem render_mem_infix (d : MessageData) (p : TemplatePiece) :
    ∀ ps : List TemplatePiece, p ∈ ps →
      ( TemplatePiece.render d p).data <:+: (renderPieces d ps).data := by
  intro ps hp
  induction ps with
  | nil => cases hp
  | cons q qs ih =>
    rcases List.mem_cons.mp hp with h | h
    · subst h
      rw [renderPieces, String.data_append]
      exact ( List.prefix_append _ _).isInfix
    · rw [renderPieces, String.data_append]
      exact (ih h).trans ( List.suffix_append _ _).isInfix

/-- A concrete filled-in form. -/
def sampleData : MessageData :=
  { recipientName := "Sarah Johnson"
    recipientTitle := "Software Engineer"
    company := "Microsoft"
    purpose := "I admire your cloud work."
    messageType := .linkedin }

/-- A concrete component state holding `sampleData`. -/
def sampleState : CoachState :=
  { initialCoachState with messageData := sampleData }

end NetworkingCoach

/-- C1: for every `MessageData` input and each of the four message types, the
client-side template function returns exactly the fixed literal segments of
that template interleaved with the input's recipientName, company and purpose
fields — string concatenation with no other dependence on the input. -/
theorem c1_templates_are_fixed_interpolation
    (mt : NetworkingCoach.MessageType) (d : NetworkingCoach.MessageData) :
    (NetworkingCoach.messageTemplates mt).template d =
      NetworkingCoach.renderPieces d (NetworkingCoach.templatePieces mt) :=
  NetworkingCoach.template_eq_renderPieces mt d

/-- C2 counterexample: `handleGenerate` makes no call to the serverless
function — its edge-call trace is empty — and the displayed message is the
locally interpolated template, refuting the claim that for every form input
the shown message is produced by a serverless call. -/
theorem c2_counterexample :
    ( NetworkingCoach.handleGenerate NetworkingCoach.sampleState).2 = [] ∧
    ( NetworkingCoach.handleGenerate NetworkingCoach.sampleState).1.generatedMessage =
      "Hi Sarah Johnson,\n\nI'm a student and came across your profile. I was impressed by your work at Microsoft. I admire your cloud work.\n\nI'd love to connect and learn from your experience in the field.\n\nBest regards" :=
  ⟨rfl, rfl⟩

/-- C2 (amended): `handleGenerate` performs no serverless (edge-function) call;
for every UI state the displayed generated message is computed locally as the
client-side template interpolation of the current form input. -/
theorem c2_amended_local_generation (s : NetworkingCoach.CoachState) :
    ( NetworkingCoach.handleGenerate s).2 = [] ∧
    ( NetworkingCoach.handleGenerate s).1.generatedMessage =
      NetworkingCoach.renderPieces s.messageData
        ( NetworkingCoach.templatePieces s.messageData.messageType) :=
  ⟨rfl, NetworkingCoach.template_eq_renderPieces _ _⟩

/-- C6 counterexample: it is not the case that the event handlers leave the
component's `activeStep` state variable unchanged — `handleGenerate` drives it
from 1 to 3 on the initial state — so a state variable driven through discrete
states by the event handlers does exist. -/
theorem c6_counterexample :
    ¬ ∀ s : NetworkingCoach.CoachState,
        (( NetworkingCoach.handleGenerate s).1).activeStep = s.activeStep := by
  intro h
  have h1 := h NetworkingCoach.initialCoachState
  simp [NetworkingCoach.handleGenerate, NetworkingCoach.initialCoachState] at h1

/-- C6 (amended): the spec's "no state machine" sentence fails for `activeStep`:
`NetworkingCoach` maintains a discrete progress state that starts at 1, stays in
{1,2,3}, and is driven monotonically upward by the event handlers (type
selection keeps it at least 1, a non-empty recipient-name input moves it to 2,
generation moves it to 3, the other inputs leave it fixed). -/
theorem c6_amended_activeStep_machine (s : NetworkingCoach.CoachState)
    (h1 : 1 ≤ s.activeStep) (h3 : s.activeStep ≤ 3) :
    NetworkingCoach.initialCoachState.activeStep = 1 ∧
    (∀ k, 1 ≤ ( NetworkingCoach.selectMessageType k s).activeStep ∧
          ( NetworkingCoach.selectMessageType k s).activeStep ≤ 3 ∧
          s.activeStep ≤ ( NetworkingCoach.selectMessageType k s).activeStep) ∧
    (∀ v, 1 ≤ ( NetworkingCoach.inputRecipientName v s).activeStep ∧
          ( NetworkingCoach.inputRecipientName v s).activeStep ≤ 3 ∧
          s.activeStep ≤ ( NetworkingCoach.inputRecipientName v s).activeStep) ∧
    (1 ≤ (( NetworkingCoach.handleGenerate s).1).activeStep ∧
      (( NetworkingCoach.handleGenerate s).1).activeStep ≤ 3 ∧
      s.activeStep ≤ (( NetworkingCoach.handleGenerate s).1).activeStep) ∧
    (∀ v, ( NetworkingCoach.inputRecipientTitle v s).activeStep = s.activeStep) ∧
    (∀ v, ( NetworkingCoach.inputCompany v s).activeStep = s.activeStep) ∧
    (∀ v, ( NetworkingCoach.inputPurpose v s).activeStep = s.activeStep) := by
  refine ⟨rfl, ?_, ?_, ?_, fun v => rfl, fun v => rfl, fun v => rfl⟩
  · intro k
    simp only [NetworkingCoach.selectMessageType]
    omega
  · intro v
    simp only [NetworkingCoach.inputRecipientName]
    split
    · rename_i hc
      simp only [Bool.and_eq_true, decide_eq_true_eq] at hc
      exact ⟨one_le_two, Nat.le_succ 2, le_of_lt hc.2⟩
    · exact ⟨h1, h3, le_refl _⟩
  · exact ⟨by simp [NetworkingCoach.handleGenerate], by simp [NetworkingCoach.handleGenerate], by
      simpa [NetworkingCoach.handleGenerate] using h3⟩

/-- Witness for the amended C6 theorem at the initial state. -/
theorem c6_amended_witness :
    1 ≤ (( NetworkingCoach.handleGenerate NetworkingCoach.initialCoachState).1).activeStep ∧
    (( NetworkingCoach.handleGenerate NetworkingCoach.initialCoachState).1).activeStep ≤ 3 ∧
    NetworkingCoach.initialCoachState.activeStep ≤
      (( NetworkingCoach.handleGenerate NetworkingCoach.initialCoachState).1).activeStep :=
  (c6_amended_activeStep_machine NetworkingCoach.initialCoachState (by decide)
    (by decide)).2.2.2.1

/-- C8: the `recipientTitle` form field never flows into a template: two inputs
that differ only in `recipientTitle` yield the same template output for every
message type, and `handleGenerate` displays the same generated message for them. -/
theorem c8_recipientTitle_noninterference (d : NetworkingCoach.MessageData)
    (t : String) (mt : NetworkingCoach.MessageType) (s : NetworkingCoach.CoachState) :
    ( NetworkingCoach.messageTemplates mt).template { d with recipientTitle := t } =
      ( NetworkingCoach.messageTemplates mt).template d ∧
    ( NetworkingCoach.handleGenerate
        { s with messageData := { d with recipientTitle := t } }).1.generatedMessage =
      ( NetworkingCoach.handleGenerate { s with messageData := d }).1.generatedMessage :=
  ⟨ NetworkingCoach.template_ignores_recipientTitle mt d t,
    NetworkingCoach.template_ignores_recipientTitle d.messageType d t⟩

/-- C9: whenever `isFormValid` holds (the Generate Message button is enabled),
`recipientName` and `company` are non-empty, and both occur embedded in the
generated message for every message type; meanwhile a state with empty
`recipientTitle` and `purpose` can still be valid. -/
theorem c9_form_valid_nonempty :
    (∀ d : NetworkingCoach.MessageData, NetworkingCoach.isFormValid d = true →
      d.recipientName ≠ "" ∧ d.company ≠ "" ∧
      ∀ mt, d.recipientName.data <:+:
              (( NetworkingCoach.messageTemplates mt).template d).data ∧
            d.company.data <:+:
              (( NetworkingCoach.messageTemplates mt).template d).data) ∧
    (∃ d : NetworkingCoach.MessageData, NetworkingCoach.isFormValid d = true ∧
      d.recipientTitle = "" ∧ d.purpose = "") := by
  constructor
  · intro d hd
    simp only [NetworkingCoach.isFormValid, Bool.and_eq_true, bne_iff_ne, ne_eq] at hd
    refine ⟨hd.1, hd.2, fun mt => ?_⟩
    rw [ NetworkingCoach.template_eq_renderPieces]
    constructor
    · exact NetworkingCoach.render_mem_infix d .recipientName _ (by cases mt <;> decide)
    · exact NetworkingCoach.render_mem_infix d .company _ (by cases mt <;> decide)
  · exact ⟨{ recipientName := "A", recipientTitle := "", company := "B", purpose := "",
             messageType := .linkedin }, by decide, rfl, rfl⟩

/-- Witness for C9 at the concrete sample form data. -/
theorem c9_witness :
    NetworkingCoach.sampleData.recipientName ≠ "" ∧
    NetworkingCoach.sampleData.company ≠ "" ∧
    NetworkingCoach.sampleData.recipientName.data <:+:
      (( NetworkingCoach.messageTemplates .linkedin).template NetworkingCoach.sampleData).data :=
  ⟨(c9_form_valid_nonempty.1 NetworkingCoach.sampleData (by decide)).1,
   (c9_form_valid_nonempty.1 NetworkingCoach.sampleData (by decide)).2.1,
   ((c9_form_valid_nonempty.1 NetworkingCoach.sampleData (by decide)).2.2 .linkedin).1⟩

namespace GenerateNetworkingMessage

/-- JavaScript's `String.prototype.trim`: remove leading and trailing
whitespace. Modelled directly on the character list so that it is executable
by kernel reduction. -/
def jsTrim (s : String) : String :=
  ⟨((s.data.dropWhile Char.isWhitespace).reverse.dropWhile Char.isWhitespace).reverse⟩

/-- `data.choices[0].message` of the upstream chat-completion JSON: its
`content` field may be absent or null (`none`) or a string. -/
structure UpstreamMessage where
  content : Option String
deriving DecidableEq, Repr

/-- The upstream OpenAI HTTP response as the handler inspects it: the `ok`
flag, `status`, `statusText`, and whether `data.choices[0].message` is present
in the parsed JSON body. -/
structure UpstreamResponse where
  ok : Bool
  status : Nat
  statusText : String
  message : Option UpstreamMessage
deriving DecidableEq, Repr

/-- The JSON body the handler serializes: `{success: true, message}` or
`{success: false, error}`. -/
inductive EdgeBody where
  | success (message : String)
  | failure (error : String)
deriving DecidableEq, Repr

/-- The handler's HTTP response: status code and optional JSON body (the
OPTIONS preflight answer has a null body). -/
structure EdgeResponse where
  status : Nat
  body : Option EdgeBody
deriving DecidableEq, Repr

/-- The `serve` handler of the `generate-networking-message` edge function.
`openAIApiKey` is `Deno.env.get('OPENAI_API_KEY')`; `upstream` is the response
of the fetch to the chat-completions endpoint. Each `throw` lands in the
`catch` block, which returns status 500 with `{success: false, error:
error.message}`; the success path returns `{success: true, message:
generatedMessage.trim()}` with the default status 200. -/
def handleRequest (method : String) (openAIApiKey : Option String)
    (upstream : UpstreamResponse) : EdgeResponse :=
  if method = "OPTIONS" then
    { status := 200, body := none }
  else
    match openAIApiKey with
    | none => { status := 500, body := some (.failure "OpenAI API key not configured") }
    | some _ =>
      if upstream.ok = false then
        { status := 500
          body := some (.failure
            ("OpenAI API error: " ++ toString upstream.status ++ " " ++ upstream.statusText)) }
      else
        match upstream.message with
        | none => { status := 500, body := some (.failure "Invalid response structure from OpenAI") }
        | some m =>
          match m.content with
          | none => { status := 500, body := some (.failure "OpenAI returned an empty message") }
          | some c =>
            if jsTrim c = "" then
              { status := 500, body := some (.failure "OpenAI returned an empty message") }
            else
              { status := 200, body := some (.success (jsTrim c)) }

/-- A concrete upstream response for witnesses: ok, with content "  hello  ". -/
def sampleUpstream : UpstreamResponse :=
  { ok := true, status := 200, statusText := "OK", message := some { content := some "  hello  " } }

/-- A concrete failed upstream response for witnesses. -/
def badUpstream : UpstreamResponse :=
  { ok := false, status := 429, statusText := "Too Many Requests", message := none }

end GenerateNetworkingMessage

/-- C3: for every non-OPTIONS request, each failure step — missing API key,
non-ok upstream response, missing `choices[0].message`, or content empty after
trimming — yields an HTTP 500 response whose body is `{success: false, error:
<that error's message>}`. -/
theorem c3_error_wrapping (method : String) (key : Option String)
    (up : GenerateNetworkingMessage.UpstreamResponse) (hm : method ≠ "OPTIONS") :
    (key = none →
      GenerateNetworkingMessage.handleRequest method key up =
        { status := 500, body := some (.failure "OpenAI API key not configured") }) ∧
    (key ≠ none → up.ok = false →
      GenerateNetworkingMessage.handleRequest method key up =
        { status := 500
          body := some (.failure
            ("OpenAI API error: " ++ toString up.status ++ " " ++ up.statusText)) }) ∧
    (key ≠ none → up.ok = true → up.message = none →
      GenerateNetworkingMessage.handleRequest method key up =
        { status := 500, body := some (.failure "Invalid response structure from OpenAI") }) ∧
    (∀ m, key ≠ none → up.ok = true → up.message = some m →
      (m.content = none ∨ ∃ c, m.content = some c ∧ GenerateNetworkingMessage.jsTrim c = "") →
      GenerateNetworkingMessage.handleRequest method key up =
        { status := 500, body := some (.failure "OpenAI returned an empty message") }) := by
  refine ⟨?_, ?_, ?_, ?_⟩
  · rintro rfl
    simp [GenerateNetworkingMessage.handleRequest, hm]
  · intro hk hok
    rcases key with _ | k
    · exact absurd rfl hk
    · simp [GenerateNetworkingMessage.handleRequest, hm, hok]
  · intro hk hok hmsg
    rcases key with _ | k
    · exact absurd rfl hk
    · simp [GenerateNetworkingMessage.handleRequest, hm, hok, hmsg]
  · intro m hk hok hmsg hc
    rcases key with _ | k
    · exact absurd rfl hk
    · rcases hc with hc | ⟨c, hc, htrim⟩
      · simp [GenerateNetworkingMessage.handleRequest, hm, hok, hmsg, hc]
      · simp [GenerateNetworkingMessage.handleRequest, hm, hok, hmsg, hc, htrim]

/-- Witness for C3: with no API key configured, a POST request gets the 500
generic error body. -/
theorem c3_witness :
    GenerateNetworkingMessage.handleRequest "POST" none
        GenerateNetworkingMessage.sampleUpstream =
      { status := 500, body := some (.failure "OpenAI API key not configured") } :=
  (c3_error_wrapping "POST" none GenerateNetworkingMessage.sampleUpstream
    (by decide)).1 rfl

/-- C4: for every non-OPTIONS request with the API key configured, if the
upstream response is ok and carries `choices[0].message` with content that is
non-empty after trimming, the handler returns `{success: true, message: <the
trimmed content>}`. -/
theorem c4_success_relay (method : String) (k : String)
    (up : GenerateNetworkingMessage.UpstreamResponse)
    (m : GenerateNetworkingMessage.UpstreamMessage) (c : String)
    (hm : method ≠ "OPTIONS") (hok : up.ok = true) (hmsg : up.message = some m)
    (hc : m.content = some c) (hne : GenerateNetworkingMessage.jsTrim c ≠ "") :
    GenerateNetworkingMessage.handleRequest method (some k) up =
      { status := 200, body := some (.success (GenerateNetworkingMessage.jsTrim c)) } := by
  simp [GenerateNetworkingMessage.handleRequest, hm, hok, hmsg, hc, hne]

/-- Witness for C4 at a concrete ok upstream response. -/
theorem c4_witness :
    GenerateNetworkingMessage.handleRequest "POST" (some "sk-test")
        GenerateNetworkingMessage.sampleUpstream =
      { status := 200, body := some (.success (GenerateNetworkingMessage.jsTrim "  hello  ")) } :=
  c4_success_relay "POST" "sk-test" GenerateNetworkingMessage.sampleUpstream
    { content := some "  hello  " } "  hello  " (by decide) rfl rfl rfl (by decide)

namespace Db

/-- The CHECK constraint on `networking_messages.message_type`:
`message_type IN ('linkedin', 'informational', 'recruiter-followup', 'mentor-request')`. -/
def messageTypeAllowed (s : String) : Bool :=
  s == "linkedin" || s == "informational" || s == "recruiter-followup" || s == "mentor-request"

/-- One row of `public.networking_messages` (uuids and timestamps as strings;
NOT NULL columns are plain `String`, nullable ones `Option String`). -/
structure DbRow where
  id : String
  user_id : String
  message_type : String
  recipient_name : String
  recipient_title : Option String
  company : String
  purpose : Option String
  generated_message : String
  is_favorite : Bool
  created_at : String
  updated_at : String
deriving DecidableEq, Repr

/-- The `update_updated_at_column` trigger function: `NEW.updated_at = now()`,
applied BEFORE UPDATE to each updated row of `networking_messages`. -/
def update_updated_at_column (now : String) (r : DbRow) : DbRow :=
  { r with updated_at := now }

/-- INSERT into `networking_messages`: the CHECK constraint rejects the row
(the statement fails, `none`) unless `message_type` is one of the four values. -/
def insertRow (tbl : List DbRow) (r : DbRow) : Option (List DbRow) :=
  if messageTypeAllowed r.message_type then some (tbl ++ [r]) else none

/-- UPDATE on `networking_messages`: rows selected by `sel` are replaced by
their `f`-image; the CHECK constraint must hold of every updated row version,
else the whole statement fails. -/
def updateRows (tbl : List DbRow) (sel : DbRow → Bool) (f : DbRow → DbRow) :
    Option (List DbRow) :=
  if tbl.all (fun r => !(sel r) || messageTypeAllowed (f r).message_type) then
    some (tbl.map fun r => if sel r then f r else r)
  else none

/-- A concrete `networking_messages` row used in witnesses. -/
def sampleDbRow : DbRow :=
  { id := "m-1"
    user_id := "00000000-0000-0000-0000-000000000001"
    message_type := "linkedin"
    recipient_name := "Sarah Johnson"
    recipient_title := some "Software Engineer"
    company := "Microsoft"
    purpose := some "I admire your cloud work."
    generated_message := "Hi Sarah Johnson, ..."
    is_favorite := false
    created_at := "2025-09-10T11:30:17Z"
    updated_at := "2025-09-10T11:30:17Z" }

end Db

namespace Rls

/-- The three tables the migration attaches policies to. -/
inductive Table where
  | profiles
  | networking_messages
  | message_analytics
deriving DecidableEq, Repr

/-- The four row-level commands a policy can cover. -/
inductive Cmd where
  | select
  | insert
  | update
  | delete
deriving DecidableEq, Repr

/-- The part of a row the policies inspect: its `user_id` column. `auth.uid()`
is an `Option String` (`none` for an unauthenticated request). -/
structure RowOwner where
  user_id : String
deriving DecidableEq, Repr

/-- The USING / WITH CHECK expression every policy in the migration uses:
`auth.uid() = user_id`. -/
def authEqUserId (uid : Option String) (r : RowOwner) : Bool :=
  uid == some r.user_id

/-- A policy: its SQL name, table, command, and predicate. -/
structure Policy where
  name : String
  table : Table
  cmd : Cmd
  check : Option String → RowOwner → Bool

/-- Every CREATE POLICY statement of the migration. -/
def policies : List Policy :=
  [⟨"Users can view their own profile", .profiles, .select, authEqUserId⟩,
   ⟨"Users can create their own profile", .profiles, .insert, authEqUserId⟩,
   ⟨"Users can update their own profile", .profiles, .update, authEqUserId⟩,
   ⟨"Users can view their own messages", .networking_messages, .select, authEqUserId⟩,
   ⟨"Users can create their own messages", .networking_messages, .insert, authEqUserId⟩,
   ⟨"Users can update their own messages", .networking_messages, .update, authEqUserId⟩,
   ⟨"Users can delete their own messages", .networking_messages, .delete, authEqUserId⟩,
   ⟨"Users can view their own analytics", .message_analytics, .select, authEqUserId⟩,
   ⟨"Users can create their own analytics", .message_analytics, .insert, authEqUserId⟩]

/-- With RLS enabled, permissive policies are OR-ed: an operation on a row is
permitted iff some policy for that table and command accepts it. -/
def permits (t : Table) (c : Cmd) (uid : Option String) (r : RowOwner) : Bool :=
  policies.any fun p => p.table == t && p.cmd == c && p.check uid r

/-- A concrete owner used in witnesses. -/
def sampleOwner : RowOwner :=
  ⟨"00000000-0000-0000-0000-000000000001"⟩

end Rls

/-- C5: whatever table, command, user and row, if any row-level-security
policy of the migration permits the operation, then `auth.uid()` equals the
row's `user_id`: no operation on a row owned by a different user is ever
permitted on profiles, networking_messages or message_analytics. -/
theorem c5_rls_owner_only (t : Rls.Table) (c : Rls.Cmd) (uid : Option String)
    (r : Rls.RowOwner) (h : Rls.permits t c uid r = true) :
    uid = some r.user_id := by
  rcases List.any_eq_true.mp h with ⟨p, hp, hcond⟩
  fin_cases hp <;> simp_all [Rls.authEqUserId]

/-- Witness for C5: the owner-update policy on networking_messages admits the
owner, and C5 then forces the uid to be the row's user_id. -/
theorem c5_witness :
    (some "00000000-0000-0000-0000-000000000001" : Option String) =
      some Rls.sampleOwner.user_id :=
  c5_rls_owner_only .networking_messages .update
    (some "00000000-0000-0000-0000-000000000001") Rls.sampleOwner (by decide)

namespace MessageHistory

/-- The `NetworkingMessage` interface of the MessageHistory component. -/
structure NetworkingMessage where
  id : String
  message_type : String
  recipient_name : String
  recipient_title : Option String
  company : String
  purpose : Option String
  generated_message : String
  is_favorite : Bool
  created_at : String
deriving DecidableEq, Repr

/-- The local-state update inside `toggleFavorite`:
`prev.map(m => m.id === message.id ? { ...m, is_favorite: !m.is_favorite } : m)`. -/
def toggleFavoriteLocal (message : NetworkingMessage)
    (msgs : List NetworkingMessage) : List NetworkingMessage :=
  msgs.map fun m =>
    if m.id == message.id then { m with is_favorite := !m.is_favorite } else m

/-- The database effect of `toggleFavorite`:
`update({ is_favorite: !message.is_favorite }).eq('id', message.id)`, with the
migration's BEFORE UPDATE trigger refreshing `updated_at` on each updated row. -/
def toggleFavoriteDb (now : String) (message : NetworkingMessage)
    (tbl : List Db.DbRow) : List Db.DbRow :=
  tbl.map fun r =>
    if r.id == message.id then
      Db.update_updated_at_column now { r with is_favorite := !message.is_favorite }
    else r

/-- A concrete loaded message matching `Db.sampleDbRow`. -/
def sampleMessage : NetworkingMessage :=
  { id := "m-1"
    message_type := "linkedin"
    recipient_name := "Sarah Johnson"
    recipient_title := some "Software Engineer"
    company := "Microsoft"
    purpose := some "I admire your cloud work."
    generated_message := "Hi Sarah Johnson, ..."
    is_favorite := false
    created_at := "2025-09-10T11:30:17Z" }

/-- The database row `Db.sampleDbRow` after toggling at time
"2025-09-11T00:00:00Z". -/
def sampleDbRowToggled : Db.DbRow :=
  { Db.sampleDbRow with is_favorite := true, updated_at := "2025-09-11T00:00:00Z" }

end MessageHistory

/-- C7 counterexample: toggling the favorite flag of the sample row also
changes the row's `updated_at` column in the database (the migration's
`update_networking_messages_updated_at` trigger refreshes it on every UPDATE),
so `is_favorite` is not the only field that changes. -/
theorem c7_counterexample :
    ( MessageHistory.toggleFavoriteDb "2025-09-11T00:00:00Z"
        MessageHistory.sampleMessage [Db.sampleDbRow]).map Db.DbRow.updated_at ≠
      [Db.sampleDbRow.updated_at] ∧
    ( MessageHistory.toggleFavoriteDb "2025-09-11T00:00:00Z"
        MessageHistory.sampleMessage [Db.sampleDbRow]).map Db.DbRow.is_favorite =
      [!Db.sampleDbRow.is_favorite] := by
  constructor
  · decide
  · decide

/-- C7 (amended): a successful `toggleFavorite(m)` negates exactly the
`is_favorite` field of the entry with id `m.id` in the local list, and in the
database sets that row's `is_favorite` to `!m.is_favorite` (a negation of the
stored value whenever it agrees with the loaded copy) while the trigger
refreshes its `updated_at`; every other field and every other row or list
entry is unchanged, and lengths are preserved. -/
theorem c7_amended_toggle_frame (message : MessageHistory.NetworkingMessage)
    (msgs : List MessageHistory.NetworkingMessage) (tbl : List Db.DbRow) (now : String) :
    ( MessageHistory.toggleFavoriteLocal message msgs).length = msgs.length ∧
    ( MessageHistory.toggleFavoriteDb now message tbl).length = tbl.length ∧
    (∀ i m m', msgs.get? i = some m →
      ( MessageHistory.toggleFavoriteLocal message msgs).get? i = some m' →
      (m.id ≠ message.id → m' = m) ∧
      (m.id = message.id →
        m'.is_favorite = !m.is_favorite ∧ m'.id = m.id ∧
        m'.message_type = m.message_type ∧ m'.recipient_name = m.recipient_name ∧
        m'.recipient_title = m.recipient_title ∧ m'.company = m.company ∧
        m'.purpose = m.purpose ∧ m'.generated_message = m.generated_message ∧
        m'.created_at = m.created_at)) ∧
    (∀ i r r', tbl.get? i = some r →
      ( MessageHistory.toggleFavoriteDb now message tbl).get? i = some r' →
      (r.id ≠ message.id → r' = r) ∧
      (r.id = message.id →
        r'.is_favorite = !message.is_favorite ∧
        (r.is_favorite = message.is_favorite → r'.is_favorite = !r.is_favorite) ∧
        r'.updated_at = now ∧ r'.id = r.id ∧ r'.user_id = r.user_id ∧
        r'.message_type = r.message_type ∧ r'.recipient_name = r.recipient_name ∧
        r'.recipient_title = r.recipient_title ∧ r'.company = r.company ∧
        r'.purpose = r.purpose ∧ r'.generated_message = r.generated_message ∧
        r'.created_at = r.created_at)) := by
  refine ⟨ List.length_map _ _, List.length_map _ _, ?_, ?_⟩
  · intro i m m' hm hm'
    rw [ MessageHistory.toggleFavoriteLocal, List.get?_map, hm, Option.map_some'] at hm'
    have hm'' := Option.some.inj hm'
    constructor
    · intro hne
      rw [if_neg (by simpa using hne)] at hm''
      exact hm''.symm
    · intro heq
      rw [if_pos (by simpa using heq)] at hm''
      subst hm''
      simp
    
  · intro i r r' hr hr'
    rw [ MessageHistory.toggleFavoriteDb, List.get?_map, hr, Option.map_some'] at hr'
    have hr'' := Option.some.inj hr'
    constructor
    · intro hne
      rw [if_neg (by simpa using hne)] at hr''
      exact hr''.symm
    · intro heq
      rw [if_pos (by simpa using heq)] at hr''
      subst hr''
      refine ⟨rfl, ?_, ?_⟩
      · intro hfav
        simp [Db.update_updated_at_column, hfav]
      · simp [Db.update_updated_at_column]

/-- Witness for the amended C7 theorem: toggling the sample row negates its
favorite flag and stamps `updated_at` with the update time. -/
theorem c7_amended_witness :
    MessageHistory.sampleDbRowToggled.is_favorite =
      ! MessageHistory.sampleMessage.is_favorite ∧
    MessageHistory.sampleDbRowToggled.updated_at = "2025-09-11T00:00:00Z" :=
  have h := ((c7_amended_toggle_frame MessageHistory.sampleMessage
    [ MessageHistory.sampleMessage] [Db.sampleDbRow] "2025-09-11T00:00:00Z").2.2.2
    0 Db.sampleDbRow MessageHistory.sampleDbRowToggled (by decide) (by decide)).2 rfl
  ⟨h.1, h.2.2.1⟩

/-- C10: a string passes the `message_type` CHECK constraint exactly when it
is the value of one of the four client-side `MessageType` variants, and the
constraint guard makes both INSERT and UPDATE preserve the invariant that
every stored row's `message_type` is one of those four values. -/
theorem c10_message_type_check :
    (∀ s, Db.messageTypeAllowed s = true ↔
      ∃ mt : NetworkingCoach.MessageType, s = mt.value) ∧
    (∀ tbl r tbl', Db.insertRow tbl r = some tbl' →
      (∀ y ∈ tbl, Db.messageTypeAllowed y.message_type = true) →
      ∀ y ∈ tbl', Db.messageTypeAllowed y.message_type = true) ∧
    (∀ tbl sel f tbl', Db.updateRows tbl sel f = some tbl' →
      (∀ y ∈ tbl, Db.messageTypeAllowed y.message_type = true) →
      ∀ y ∈ tbl', Db.messageTypeAllowed y.message_type = true) := by
  refine ⟨?_, ?_, ?_⟩
  · intro s
    constructor
    · intro h
      simp only [Db.messageTypeAllowed, Bool.or_eq_true, beq_iff_eq] at h
      rcases h with ((h | h) | h) | h
      · exact ⟨.linkedin, h⟩
      · exact ⟨.informational, h⟩
      · exact ⟨.recruiterFollowup, h⟩
      · exact ⟨.mentorRequest, h⟩
    · rintro ⟨mt, rfl⟩
      cases mt <;> decide
  · intro tbl r tbl' hins hinv
    rw [Db.insertRow] at hins
    split at hins
    · rename_i hc
      cases hins
      intro y hy
      rcases List.mem_append.mp hy with h1 | h1
      · exact hinv y h1
      · rw [ List.mem_singleton.mp h1]
        exact hc
    · cases hins
  · intro tbl sel f tbl' hupd hinv
    rw [Db.updateRows] at hupd
    split at hupd
    · rename_i hall
      cases hupd
      intro y hy
      rcases List.mem_map.mp hy with ⟨r, hr, rfl⟩
      have hg := List.all_eq_true.mp hall r hr
      by_cases hs : sel r = true
      · rw [if_pos hs]
        simpa [hs] using hg
      · rw [if_neg hs]
        exact hinv r hr
    · cases hupd

/-- Witness for C10: inserting the sample row into the empty table succeeds
and every resulting row passes the CHECK constraint. -/
theorem c10_witness :
    Db.messageTypeAllowed Db.sampleDbRow.message_type = true :=
  c10_message_type_check.2.1 [] Db.sampleDbRow ([] ++ [Db.sampleDbRow]) (by decide)
    (fun y hy => absurd hy (List.not_mem_nil y)) Db.sampleDbRow (by decide)
